import Mathlib

/-!
Shallow embedding of the milkbox-ai tool-manifest loading, resolution and
dispatch logic, together with the CI scripts (smoke_tools.py, reg_watch.py,
sop_watch.py) and the interactive app (streamlit_app/app.py,
streamlit_app/utils/tool_loader.py).

Python values parsed from YAML are modelled by the inductive `Yaml`
(YAML mapping keys are modelled as strings, which is the only shape the
repository uses).  Python string coercion `str(...)` is modelled by `pyStr`
(string repr quoting is modelled for quote-free strings), `.strip()` by
`pyStrip`, and truthiness by `yamlTruthy`.
-/

inductive Yaml : Type where
  | nullV : Yaml
  | bool' : Bool → Yaml
  | int' : Int → Yaml
  | str : String → Yaml
  | list : List Yaml → Yaml
  | map : List (String × Yaml) → Yaml
deriving Repr

/-- Python truthiness of a parsed YAML value (`bool(v)`). -/
def yamlTruthy : Yaml → Bool
  | .nullV => false
  | .bool' b => b
  | .int' n => n != 0
  | .str s => !s.isEmpty
  | .list xs => !xs.isEmpty
  | .map kvs => !kvs.isEmpty

/-- Python `repr` of a value (string quoting modelled for quote-free strings). -/
def pyRepr : Yaml → String
  | .nullV => ("None")
  | .bool' true => ("True")
  | .bool' false => ("False")
  | .int' n => toString n
  | .str s => ("\x27") ++ s ++ ("\x27")
  | .list xs => ("[") ++ String.intercalate (", ") (xs.attach.map fun x => pyRepr x.1) ++ ("]")
  | .map kvs => ("\x7b") ++
      String.intercalate (", ")
        (kvs.attach.map fun p => ("\x27") ++ p.1.1 ++ ("\x27: ") ++ pyRepr p.1.2) ++ ("\x7d")
decreasing_by
  · have := List.sizeOf_lt_of_mem x.2
    simp
    omega
  · have h1 : sizeOf p.1 < sizeOf kvs := List.sizeOf_lt_of_mem p.2
    have h2 : sizeOf p.1.2 < sizeOf p.1 := by
      obtain ⟨a, b⟩ := p.1
      simp
    simp
    omega

/-- Python `str(...)` of a value. -/
def pyStr : Yaml → String
  | .str s => s
  | v => pyRepr v

/-- Python `str.strip()` (with no argument): drop leading and trailing whitespace. -/
def pyStrip (s : String) : String :=
  ⟨((s.data.dropWhile Char.isWhitespace).reverse.dropWhile Char.isWhitespace).reverse⟩

/-- Boolean infix test on lists: is `needle` a contiguous sublist of `hay`? -/
def listInfix (needle : List Char) : List Char → Bool
  | [] => needle.isEmpty
  | c :: t => needle.isPrefixOf (c :: t) || listInfix needle t

/-- Python `needle in hay` on strings: substring containment. -/
def strContains (hay needle : String) : Bool :=
  listInfix needle.data hay.data

/-- Helper for `pySplitWs`: walk the characters keeping the (reversed) current
token, emitting a token at each whitespace run boundary. -/
def splitWsAux : List Char → List Char → List String
  | [], acc => if acc.isEmpty then [] else [⟨acc.reverse⟩]
  | c :: cs, acc =>
    if c.isWhitespace then
      if acc.isEmpty then splitWsAux cs []
      else ⟨acc.reverse⟩ :: splitWsAux cs []
    else splitWsAux cs (c :: acc)

/-- Python `str.split()` with no argument: split on whitespace runs, dropping
empty tokens. -/
def pySplitWs (s : String) : List String :=
  splitWsAux s.data []

/-- Python `str.lower()` (modelled characterwise on the underlying data). -/
def pyLower (s : String) : String :=
  ⟨s.data.map Char.toLower⟩

/-- Assignment `d[k] = v` on a Python dict modelled as an association list:
an existing key keeps its insertion position but gets the new value;
a new key is appended. -/
def dictInsert {α : Type} (out : List (String × α)) (k : String) (v : α) :
    List (String × α) :=
  if out.any (fun p => p.1 == k) then
    out.map (fun p => if p.1 == k then (k, v) else p)
  else
    out ++ [(k, v)]

/-!
## Modules and the render contract

A resolved Python module is modelled by what the dispatch code observes of it:
its `render` attribute.  `inspect.Parameter` kinds and defaults are modelled by
`Param`; calling a zero-required-argument `render()` either returns normally or
raises, modelled by `RenderBody`.
-/

/-- The kind of a parameter in `inspect.signature(fn).parameters`. -/
inductive ParamKind : Type where
  | positionalOnly : ParamKind
  | positionalOrKeyword : ParamKind
  | varPositional : ParamKind
  | keywordOnly : ParamKind
  | varKeyword : ParamKind
deriving DecidableEq, Repr

/-- One parameter of a `render` callable (`hasDefault` is false when
`p.default is inspect._empty`). -/
structure Param : Type where
  name : String
  kind : ParamKind
  hasDefault : Bool
deriving DecidableEq, Repr

/-- What executing the body of `render()` does once actually invoked. -/
inductive RenderBody : Type where
  | ok : RenderBody
  | raises : String → RenderBody
deriving DecidableEq, Repr

/-- A callable `render` attribute: its signature and its behaviour when called. -/
structure RenderFn : Type where
  params : List Param
  body : RenderBody
deriving DecidableEq, Repr

/-- The `render` attribute of a module, when present: either a callable or some
non-callable object. -/
inductive RenderAttr : Type where
  | callable : RenderFn → RenderAttr
  | notCallable : RenderAttr
deriving DecidableEq, Repr

/-- A Python module as observed by the dispatcher: `getattr(mod, "render", None)`. -/
structure PyModule : Type where
  render : Option RenderAttr
deriving DecidableEq, Repr

/-- `inspect.signature(fn).parameters` filtered to the required positional ones:
kind POSITIONAL_ONLY or POSITIONAL_OR_KEYWORD and no default. -/
def requiredPositional (params : List Param) : List Param :=
  params.filter (fun p =>
    (p.kind == ParamKind.positionalOnly || p.kind == ParamKind.positionalOrKeyword)
      && !p.hasDefault)

/-!
## The import environment

`importlib.import_module` on a dotted path, existence of
`streamlit_app/tools/<key>.py`, and loading that file by path
(`spec_from_file_location` + `exec_module`) are modelled as an environment of
three functions, since their outcomes are decided by the interpreter state and
the filesystem.
-/

/-- Outcome of `importlib.import_module(module_path)`. -/
inductive ImportOutcome : Type where
  | ok : PyModule → ImportOutcome
  | moduleNotFound : ImportOutcome
  | otherError : String → ImportOutcome
deriving DecidableEq, Repr

/-- Outcome of loading `tools/<key>.py` by path, given that the file exists:
a module, a `None` spec/loader, or an exception from executing the file. -/
inductive FileLoad : Type where
  | ok : PyModule → FileLoad
  | noSpec : FileLoad
  | execErr : String → FileLoad
deriving DecidableEq, Repr

/-- The interpreter/filesystem facts the loaders consult. -/
structure ImportEnv : Type where
  importResult : String → ImportOutcome
  fileExists : String → Bool
  fileLoad : String → FileLoad

/-!
## streamlit_app/utils/tool_loader.py
-/

/-- Result of `safe_import_module`: a module, `None` (not present), or a raised
exception. -/
inductive SafeImportResult : Type where
  | found : PyModule → SafeImportResult
  | notPresent : SafeImportResult
  | raised : String → SafeImportResult
deriving DecidableEq, Repr

/-- `safe_import_module(key, module_path)` from tool_loader.py: try the
dotted import; on `ModuleNotFoundError` fall back to `tools/<key>.py` (missing file or
`None` spec gives `None`, a broken file re-raises); any other import error
re-raises. -/
def safe_import_module (env : ImportEnv) (key module_path : String) : SafeImportResult :=
  match env.importResult module_path with
  | .ok m => .found m
  | .otherError e => .raised e
  | .moduleNotFound =>
    if env.fileExists key then
      match env.fileLoad key with
      | .ok m => .found m
      | .noSpec => .notPresent
      | .execErr e => .raised e
    else
      .notPresent

/-- A Python call result: a normal return or an exception propagating to the
caller. -/
inductive PyResult (α : Type) : Type where
  | ret : α → PyResult α
  | exc : String → PyResult α
deriving DecidableEq, Repr

/-- What `render_or_placeholder` leaves on the page when it returns normally. -/
inductive ToolDisplay : Type where
  | errorMsg : String → ToolDisplay
  | infoPlaceholder : ToolDisplay
  | renderedOk : ToolDisplay
deriving DecidableEq, Repr

/-- `render_or_placeholder(key, module_path)` from tool_loader.py.  The second
component counts how many times the body of the tool's `render()` was executed.
The final `fn()` call is outside any `try`, so an exception raised inside the
tool's own `render()` is the one path that escapes (`PyResult.exc`). -/
def render_or_placeholder (env : ImportEnv) (key module_path : String) :
    PyResult ToolDisplay × Nat :=
  match safe_import_module env key module_path with
  | .raised e =>
    (.ret (.errorMsg (("Couldn’t load tool **") ++ key ++ ("** (`") ++ module_path
      ++ ("`): ") ++ e)), 0)
  | .notPresent => (.ret .infoPlaceholder, 0)
  | .found mod =>
    match mod.render with
    | none => (.ret (.errorMsg (("Tool **") ++ key ++ ("** is missing a callable `render()`."))), 0)
    | some .notCallable =>
      (.ret (.errorMsg (("Tool **") ++ key ++ ("** is missing a callable `render()`."))), 0)
    | some (.callable fn) =>
      let required := requiredPositional fn.params
      if required.isEmpty then
        match fn.body with
        | .ok => (.ret .renderedOk, 1)
        | .raises e => (.exc e, 1)
      else
        (.ret (.errorMsg (("Tool **") ++ key ++ ("** `render()` must take **no required args** (found: ")
          ++ String.intercalate (", ") (required.map Param.name) ++ (")."))), 0)

/-!
## scripts/smoke_tools.py
-/

/-- `_validate_render(mod, key)`: require a callable `render` with no required
positional parameters; failure messages are the script's exact texts. -/
def validate_render (mod : PyModule) (key : String) : Bool × String :=
  match mod.render with
  | none => (false, key ++ (": Missing callable render()"))
  | some .notCallable => (false, key ++ (": Missing callable render()"))
  | some (.callable fn) =>
    let required := requiredPositional fn.params
    if required.isEmpty then
      (true, key ++ (": OK"))
    else
      (false, key ++ (": render() must take no required positional args (found: ")
        ++ String.intercalate (", ") (required.map Param.name) ++ (")"))

/-- What the smoke check records for one manifest entry. -/
inductive SmokeOutcome : Type where
  | skippedDisabled : SmokeOutcome
  | skippedNotPresent : SmokeOutcome
  | passed : SmokeOutcome
  | failed : String → SmokeOutcome
deriving DecidableEq, Repr

/-- The body of the per-entry loop of `main()` in smoke_tools.py, for an
enabled entry: primary import, fallback on `ModuleNotFoundError` (a missing
fallback file is a SKIP), validation, and the outer `except Exception`
(any other import error, a `None` spec, or a broken fallback file) recorded
as a failure. -/
def smokeEntry (env : ImportEnv) (key module_path : String) : SmokeOutcome :=
  match env.importResult module_path with
  | .ok mod =>
    match validate_render mod key with
    | (true, _) => .passed
    | (false, msg) => .failed msg
  | .otherError e =>
    .failed (key ++ (": ") ++ e)
  | .moduleNotFound =>
    if env.fileExists key then
      match env.fileLoad key with
      | .ok mod =>
        match validate_render mod key with
        | (true, _) => .passed
        | (false, msg) => .failed msg
      | .noSpec => .failed (key ++ (": Could not create spec"))
      | .execErr e => .failed (key ++ (": ") ++ e)
    else
      .skippedNotPresent

/-- One loaded manifest entry as `_load_tools_entries` records it. -/
structure ToolCfg : Type where
  module : String
  enabled : Bool
deriving DecidableEq, Repr

/-- The failure messages accumulated by the loop of `main()` over the loaded
entries (skips and successes append nothing). -/
def smokeRun (env : ImportEnv) : List (String × ToolCfg) → List String
  | [] => []
  | (key, cfg) :: rest =>
    (if cfg.enabled then
      match smokeEntry env key cfg.module with
      | .failed msg => [msg]
      | _ => []
    else []) ++ smokeRun env rest

/-- The exit code of `main()` given the loaded entries: 1 when any failure was
recorded, else 0. -/
def smokeExit (env : ImportEnv) (entries : List (String × ToolCfg)) : Nat :=
  if smokeRun env entries = [] then 0 else 1

/-- `_add_entry(out, key, module, enabled)`: a falsy/absent module defaults to
`tools.<key>`; the dict assignment silently overwrites an existing key. -/
def add_entry (out : List (String × ToolCfg)) (key : String) (module : Option Yaml)
    (enabled : Yaml) : List (String × ToolCfg) :=
  let mv := module.getD .nullV
  let mod := if yamlTruthy mv then pyStr mv else ("tools.") ++ key
  dictInsert out key ⟨mod, yamlTruthy enabled⟩

/-- Result of `_load_tools_entries` (and of reading tools.yaml before it):
a `sys.exit(1)` with a `::error`, a loaded entry dict plus the `::warning`
texts printed, or an uncaught exception. -/
inductive LoadEntriesResult : Type where
  | fatal : String → LoadEntriesResult
  | ok : List (String × ToolCfg) → List String → LoadEntriesResult
  | raised : String → LoadEntriesResult
deriving DecidableEq, Repr

/-- The mapping form of the manifest: `for key, val in candidate.items()`. -/
def loadFromMapping (acc : List (String × ToolCfg) × List String) :
    List (String × Yaml) → List (String × ToolCfg) × List String
  | [] => acc
  | (key, val) :: rest =>
    match val with
    | .str s => loadFromMapping (add_entry acc.1 key (some (.str s)) (.bool' true), acc.2) rest
    | .map m =>
      loadFromMapping
        (add_entry acc.1 key (m.lookup ("module")) ((m.lookup ("enabled")).getD (.bool' true)),
          acc.2) rest
    | .nullV => loadFromMapping (add_entry acc.1 key none (.bool' true), acc.2) rest
    | _ =>
      loadFromMapping
        (acc.1, acc.2 ++ [("Skipping ") ++ key ++ (" - unsupported value type.")]) rest

/-- The list form of the manifest: `for i, item in enumerate(candidate)`. -/
def loadFromList (acc : List (String × ToolCfg) × List String) :
    List Yaml → List (String × ToolCfg) × List String
  | [] => acc
  | item :: rest =>
    match item with
    | .str s => loadFromList (add_entry acc.1 s none (.bool' true), acc.2) rest
    | .map m =>
      match m.lookup ("key") with
      | some kv =>
        loadFromList
          (add_entry acc.1 (pyStr kv) (m.lookup ("module"))
            ((m.lookup ("enabled")).getD (.bool' true)), acc.2) rest
      | none =>
        match m with
        | [(k, .str v)] => loadFromList (add_entry acc.1 k (some (.str v)) (.bool' true), acc.2) rest
        | [(k, .map vm)] =>
          loadFromList
            (add_entry acc.1 k (vm.lookup ("module"))
              ((vm.lookup ("enabled")).getD (.bool' true)), acc.2) rest
        | [(_, _)] =>
          loadFromList (acc.1, acc.2 ++ [("Skipping list item - unsupported single-key value.")]) rest
        | _ =>
          loadFromList
            (acc.1, acc.2 ++ [("Skipping list item - missing key or single-key mapping.")]) rest
    | _ => loadFromList (acc.1, acc.2 ++ [("Skipping list item - unsupported type.")]) rest

/-- How tools.yaml was read: missing file, a YAML parse error, or parsed data. -/
inductive ReadResult : Type where
  | missing : ReadResult
  | parseError : String → ReadResult
  | parsed : Yaml → ReadResult

/-- `_load_tools_entries()`: missing or unparseable tools.yaml is `sys.exit(1)`;
`data = ... or {}`; `candidate = data.get("tools", data)` (a non-mapping `data`
raises `AttributeError` uncaught); a candidate that is neither mapping nor list,
or an empty result, is `sys.exit(1)`. -/
def load_tools_entries (rr : ReadResult) : LoadEntriesResult :=
  match rr with
  | .missing => .fatal ("Missing tools.yaml")
  | .parseError e => .fatal (("Failed to parse tools.yaml: ") ++ e)
  | .parsed y =>
    let data := if yamlTruthy y then y else .map []
    match data with
    | .map kvs =>
      let candidate := (kvs.lookup ("tools")).getD (.map kvs)
      match candidate with
      | .map m =>
        let (entries, warnings) := loadFromMapping ([], []) m
        if entries.isEmpty then .fatal ("No usable tool entries found.")
        else .ok entries warnings
      | .list items =>
        let (entries, warnings) := loadFromList ([], []) items
        if entries.isEmpty then .fatal ("No usable tool entries found.")
        else .ok entries warnings
      | _ => .fatal ("tools must be a mapping or a list of tool entries.")
    | _ => .raised ("AttributeError")

/-- The whole of `main()` in smoke_tools.py, from reading tools.yaml to the
exit code.  `sys.exit(1)` inside `_load_tools_entries` surfaces as exit code 1;
an uncaught exception is `PyResult.exc`. -/
def smoke_main (rr : ReadResult) (env : ImportEnv) : PyResult Nat :=
  match load_tools_entries rr with
  | .fatal _ => .ret 1
  | .raised e => .exc e
  | .ok entries _ => .ret (smokeExit env entries)

/-!
## streamlit_app/app.py
-/

/-- `load_tools_config()`: the list of `st.error` messages shown and the
config returned.  A missing file or a parse error is caught and an empty
tools configuration is returned, so the session continues. -/
def load_tools_config (rr : ReadResult) : List String × Yaml :=
  match rr with
  | .missing =>
    ([("Failed to read tools.yaml: FileNotFoundError. Make sure tools.yaml is at the repository root.")],
      .map [(("tools"), .list [])])
  | .parseError e =>
    ([("Error parsing tools.yaml: ") ++ e], .map [(("tools"), .list [])])
  | .parsed y => ([], if yamlTruthy y then y else .map [])

/-- The record `normalize_tools` builds for each kept manifest entry
(`section` is a Lean keyword, hence the field name `sectionVal`). -/
structure ToolEntry : Type where
  key : String
  label : String
  module : String
  sectionVal : Yaml
  description : Yaml
deriving Repr

/-- The body of the `for t in items` loop of `normalize_tools`: `None` when the
item is dropped (not a dict, or blank coerced-and-stripped key or module),
otherwise the cleaned record.  A present-but-blank label falls back to the key
(`str(t.get("label", key)).strip() or key`). -/
def normalizeOne : Yaml → Option ToolEntry
  | .map kvs =>
    let key := pyStrip (pyStr ((kvs.lookup ("key")).getD (.str (""))))
    let module := pyStrip (pyStr ((kvs.lookup ("module")).getD (.str (""))))
    let label :=
      if key.isEmpty then key
      else
        let l0 := pyStrip (pyStr ((kvs.lookup ("label")).getD (.str key)))
        if l0.isEmpty then key else l0
    if !key.isEmpty && !module.isEmpty then
      some ⟨key, label, module, (kvs.lookup ("section")).getD .nullV,
        (kvs.lookup ("description")).getD (.str (""))⟩
    else
      none
  | _ => none

/-- `normalize_tools(raw)`: `items = raw.get("tools", []) or []`, then one pass
over `items`.  Iterating a string yields its characters and iterating a dict
yields its keys (each a string, so never a dict: all dropped); iterating a
non-iterable such as an int raises `TypeError`, and `raw.get` on a non-dict
raises `AttributeError`. -/
def normalize_tools : Yaml → PyResult (List ToolEntry)
  | .map kvs =>
    let tv := (kvs.lookup ("tools")).getD (.list [])
    let items := if yamlTruthy tv then tv else .list []
    match items with
    | .list xs => .ret (xs.filterMap normalizeOne)
    | .str s => .ret ((s.data.map (fun c => Yaml.str (String.singleton c))).filterMap normalizeOne)
    | .map kvs2 => .ret ((kvs2.map (fun p => Yaml.str p.1)).filterMap normalizeOne)
    | .int' _ => .exc ("TypeError: object is not iterable")
    | .bool' _ => .exc ("TypeError: object is not iterable")
    | .nullV => .exc ("TypeError: object is not iterable")
  | _ => .exc ("AttributeError")

/-- `CANDIDATE_FILES` from app.py. -/
def CANDIDATE_FILES : List String :=
  [("__init__.py"), ("app.py"), ("main.py"), ("index.py"), ("page.py"), ("render.py")]

/-- The filesystem/interpreter facts `smart_import` consults: the
dotted import, the single file `tools/<name>.py`, the directory `tools/<name>/`, and
its candidate files (`none` means the file does not exist). -/
structure AppEnv : Type where
  importResult : String → ImportOutcome
  toolFile : String → Option FileLoad
  pkgDirIsDir : String → Bool
  pkgFile : String → String → Option FileLoad

/-- `_load_module_from_file` as observed by `smart_import`: a `None` spec is an
`ImportError` and a broken file raises, both caught by `smart_import`, which
then returns `None`. -/
def fileLoadToOption : FileLoad → Option PyModule
  | .ok m => some m
  | .noSpec => none
  | .execErr _ => none

/-- The `for fname in CANDIDATE_FILES + [...]` loop of `smart_import`: each
candidate path is appended to `tried` before the existence check, and the
first existing candidate is loaded (successfully or not) and ends the loop. -/
def tryCandidates (env : AppEnv) (name : String) :
    List String → Option PyModule × List String
  | [] => (none, [])
  | f :: fs =>
    let path := ("streamlit_app/tools/") ++ name ++ ("/") ++ f
    match env.pkgFile name f with
    | some fl => (fileLoadToOption fl, [path])
    | none =>
      let (r, t) := tryCandidates env name fs
      (r, path :: t)

/-- `smart_import(module_path)` from app.py: normal import first (an
unexpected import error gives `None`); on `ModuleNotFoundError`, only `tools.<name>` paths
are probed, first as `tools/<name>.py`, then inside the directory
`tools/<name>/`.  Returns the module (or `None`) and the tried paths. -/
def smart_import (env : AppEnv) (module_path : String) :
    Option PyModule × List String :=
  match env.importResult module_path with
  | .ok m => (some m, [])
  | .otherError _ => (none, [])
  | .moduleNotFound =>
    match module_path.splitOn (".") with
    | [p0, name] =>
      if p0 = ("tools") then
        let single := ("streamlit_app/tools/") ++ name ++ (".py")
        match env.toolFile name with
        | some fl => (fileLoadToOption fl, [single])
        | none =>
          if env.pkgDirIsDir name then
            let (r, t) := tryCandidates env name (CANDIDATE_FILES ++ [name ++ (".py")])
            (r, single :: t)
          else
            (none, [single])
      else
        (none, [])
    | _ => (none, [])

/-- What `render_selected_tool` leaves on the page. -/
inductive AppDisplay : Type where
  | homeScreen : AppDisplay
  | keyNotFound : String → AppDisplay
  | importError : String → List String → AppDisplay
  | renderedOk : AppDisplay
  | renderError : String → String → AppDisplay
  | noRenderFn : String → AppDisplay
deriving Repr

/-- `render_selected_tool(tools, key)` from app.py.  The second component
counts executions of the selected tool's `render()` body.  `mod.render()` is
wrapped in `try/except Exception`, so a raising `render()` (or a `TypeError`
from a non-callable or required-argument `render`) becomes an in-page error;
no path raises to the caller. -/
def render_selected_tool (env : AppEnv) (tools : List ToolEntry) (key : Option String) :
    PyResult AppDisplay × Nat :=
  match key with
  | none => (.ret .homeScreen, 0)
  | some k =>
    if k.isEmpty then (.ret .homeScreen, 0)
    else
      match tools.find? (fun t => t.key == k) with
      | none => (.ret (.keyNotFound k), 0)
      | some entry =>
        match smart_import env entry.module with
        | (none, tried) => (.ret (.importError entry.module tried), 0)
        | (some mod, _) =>
          match mod.render with
          | none => (.ret (.noRenderFn entry.module), 0)
          | some .notCallable =>
            (.ret (.renderError entry.label ("TypeError: object is not callable")), 0)
          | some (.callable fn) =>
            if (requiredPositional fn.params).isEmpty then
              match fn.body with
              | .ok => (.ret .renderedOk, 1)
              | .raises e => (.ret (.renderError entry.label e), 1)
            else
              (.ret (.renderError entry.label
                ("TypeError: render() missing required positional arguments")), 0)

/-!
## scripts/reg_watch.py
-/

/-- The HEAD metadata `head_metadata` extracts on a successful request. -/
structure RegMeta : Type where
  status : Nat
  final_url : String
  etag : String
  last_modified : String
  content_length : String
  checked_at : Nat
deriving DecidableEq, Repr

/-- The change signature built by `head_metadata`. -/
def regSignature (m : RegMeta) : String :=
  ("status=") ++ toString m.status ++ ("|url=") ++ m.final_url ++ ("|etag=") ++ m.etag
    ++ ("|last=") ++ m.last_modified ++ ("|len=") ++ m.content_length

/-- Outcome of `head_metadata(url)`: `{"ok": False, "error": ...}` when both the
HEAD and the fallback ranged GET fail, else the metadata. -/
inductive FetchOutcome : Type where
  | fail : String → FetchOutcome
  | ok : RegMeta → FetchOutcome
deriving DecidableEq, Repr

/-- One watchlist document after `load_watchlist` (its falsy-to-`None`
normalisation means `secret` and `url` are `None` or non-empty). -/
structure RegDoc : Type where
  key : String
  name : String
  secret : Option String
  url : Option String
deriving Repr

/-- The externals `main()` consults: `os.getenv` for secrets, the fallback file
`standards/urls/<key>.txt`, and the network. -/
structure RegEnv : Type where
  secretEnv : String → Option String
  urlFile : String → Option String
  fetch : String → FetchOutcome

/-- `resolve_url(doc)`: secret env var (a set-but-empty variable falls
through), then the inline url, then the fallback file, each `.strip()`ed. -/
def resolve_url (env : RegEnv) (d : RegDoc) : Option String :=
  let rest : Option String :=
    match d.url with
    | some u => some (pyStrip u)
    | none =>
      match env.urlFile d.key with
      | some contents => some (pyStrip contents)
      | none => none
  match d.secret with
  | some s =>
    match env.secretEnv s with
    | some v => if v.isEmpty then rest else some (pyStrip v)
    | none => rest
  | none => rest

/-- The previously stored signature for a key:
`((state.get(doc.key) or {}).get("signature"))` — the stored JSON record may
lack a `"signature"` field, so state values are `Option String`. -/
def prevSigOf (state : List (String × Option String)) (key : String) : Option String :=
  (state.lookup key).getD none

/-- The loop of `main()` in reg_watch.py, threading the mutated `state` dict:
returns the final state and the keys of the `updated` changes in loop order.
A document with no resolved (non-empty) URL or a failed fetch only records an
error and never updates the state. -/
def regFold (env : RegEnv) :
    List RegDoc → List (String × Option String) →
      List (String × Option String) × List String
  | [], state => (state, [])
  | d :: rest, state =>
    match resolve_url env d with
    | none => regFold env rest state
    | some url =>
      if url.isEmpty then regFold env rest state
      else
        match env.fetch url with
        | .fail _ => regFold env rest state
        | .ok meta =>
          if prevSigOf state d.key = some (regSignature meta) then
            regFold env rest state
          else
            let (st, ups) := regFold env rest (dictInsert state d.key (some (regSignature meta)))
            (st, d.key :: ups)

/-- What one run of `main()` in reg_watch.py does once the watchlist loaded:
the exit code returned, whether `save_state` + `append_log` ran (they run
exactly when `updated` is non-empty), and the state written. -/
structure RegRun : Type where
  exitCode : Nat
  wrote : Bool
  finalState : List (String × Option String)
deriving Repr

/-- Result of `load_watchlist()`: its `sys.exit(1)` on a missing file, an
uncaught exception (which ends the process with a non-zero code), the loaded
documents together with the skip warnings printed, or — for the one fragment
this embedding does not cover, items carrying truthy non-string `key`,
`secret` or `url` scalars — an explicit out-of-scope marker. -/
inductive LoadWatchlistResult : Type where
  | exit1 : LoadWatchlistResult
  | raised : String → LoadWatchlistResult
  | illTyped : LoadWatchlistResult
  | docs : List RegDoc → List String → LoadWatchlistResult
deriving Repr

/-- The `for item in (y.get("docs") or [])` loop of `load_watchlist`: a
non-mapping item raises `AttributeError` at `item.get` (uncaught); an item
whose `key` is falsy is skipped with a warning; otherwise a `Doc` is built,
with `secret` and `url` following `item.get(...) or None` (falsy becomes
`None`).  `name` can be any value — the script only ever `str()`-formats it
into log/error text, modelled by `pyStr`.  An item whose truthy `key`,
`secret` or `url` is not a string is marked `illTyped` rather than modelled:
the script would keep the raw value and fail, if at all, only at later use
sites (`os.getenv`, JSON state keys); the watchlist format uses strings. -/
def loadDocItems : List Yaml → LoadWatchlistResult
  | [] => .docs [] []
  | item :: rest =>
    match item with
    | .map m =>
      let kv := (m.lookup ("key")).getD .nullV
      if yamlTruthy kv then
        match kv with
        | .str k =>
          let nv := (m.lookup ("name")).getD kv
          let sv := (m.lookup ("secret")).getD .nullV
          let uv := (m.lookup ("url")).getD .nullV
          let secretOpt : Option (Option String) :=
            if yamlTruthy sv then
              match sv with
              | .str s => some (some s)
              | _ => none
            else some none
          let urlOpt : Option (Option String) :=
            if yamlTruthy uv then
              match uv with
              | .str u => some (some u)
              | _ => none
            else some none
          match secretOpt, urlOpt with
          | some so, some uo =>
            match loadDocItems rest with
            | .docs ds ws => .docs (⟨k, pyStr nv, so, uo⟩ :: ds) ws
            | other => other
          | _, _ => .illTyped
        | _ => .illTyped
      else
        match loadDocItems rest with
        | .docs ds ws => .docs ds (("WARNING: skipping item without key") :: ws)
        | other => other
    | _ => .raised ("AttributeError")

/-- `load_watchlist()` from reg_watch.py over how watchlist.yaml was read:
a missing file is `sys.exit(1)`; a YAML parse error propagates uncaught;
`y.get` on a non-mapping document (after `y = ... or {}`) raises
`AttributeError`; a truthy non-iterable `docs` value raises `TypeError`,
while iterating a (truthy) string or mapping reaches `item.get` on a
non-mapping and raises `AttributeError`; a `docs` list is processed item by
item. -/
def load_watchlist (rr : ReadResult) : LoadWatchlistResult :=
  match rr with
  | .missing => .exit1
  | .parseError e => .raised e
  | .parsed y =>
    let data := if yamlTruthy y then y else .map []
    match data with
    | .map kvs =>
      let dv := (kvs.lookup ("docs")).getD .nullV
      let items := if yamlTruthy dv then dv else .list []
      match items with
      | .list xs => loadDocItems xs
      | .str _ => .raised ("AttributeError")
      | .map _ => .raised ("AttributeError")
      | _ => .raised ("TypeError: object is not iterable")
    | _ => .raised ("AttributeError")

/-- The observable fate of one `main()` process run of reg_watch.py,
watchlist loading included: `sys.exit(1)`, death by uncaught exception
(non-zero exit), or a normal return of `main()`. -/
inductive RegMainResult : Type where
  | exit1 : RegMainResult
  | crashed : String → RegMainResult
  | outsideModel : RegMainResult
  | ran : RegRun → RegMainResult
deriving Repr

/-- `main()` from reg_watch.py, from `docs = load_watchlist()` onward: the
load phase can end the process (`sys.exit(1)` or an uncaught exception);
otherwise the documents are folded, state and log are written only when a
change was recorded, and 0 is returned. -/
def reg_main (rr : ReadResult) (env : RegEnv) (state0 : List (String × Option String)) :
    RegMainResult :=
  match load_watchlist rr with
  | .exit1 => .exit1
  | .raised e => .crashed e
  | .illTyped => .outsideModel
  | .docs ds _ =>
    let (st, ups) := regFold env ds state0
    .ran ⟨0, !ups.isEmpty, if ups.isEmpty then state0 else st⟩

/-!
## scripts/sop_watch.py
-/

/-- One department of standards/departments.yaml, together with the stems of
the files `list_files` finds recursively under its `sop_dir` (an empty
`sop_dir` means the field was unset/empty, so no directory is scanned). -/
structure Dept : Type where
  key : String
  name : String
  sop_dir : String
  expected_sops : List String
  stems : List String
deriving Repr

/-- The `found` set of lowercased stems for a department. -/
def deptFound (d : Dept) : List String :=
  if d.sop_dir.isEmpty then [] else d.stems.map pyLower

/-- One expected SOP check: `token = sop.split()[0].lower()`, matched as a
substring of any found stem.  `None` when `sop.split()` is empty, in which
case the script raises `IndexError`. -/
def sopToken (sop : String) : Option String :=
  match pySplitWs sop with
  | [] => none
  | tok :: _ => some (pyLower tok)

/-- The `for sop in expected` loop: the missing SOPs of one department, or an
`IndexError` at the first whitespace-only expected SOP. -/
def deptMissing (d : Dept) : List String → PyResult (List String)
  | [] => .ret []
  | sop :: rest =>
    match sopToken sop with
    | none => .exc ("IndexError: list index out of range")
    | some tok =>
      let okT := (deptFound d).any (fun st => strContains st tok)
      match deptMissing d rest with
      | .exc e => .exc e
      | .ret ms => .ret (if okT then ms else sop :: ms)

/-- `main()` from sop_watch.py over the loaded departments: exit 1 when any
department has a missing expected SOP, else exit 0 (the summary JSON write is
unconditional and not modelled). -/
def sop_main (depts : List Dept) : PyResult Nat :=
  match depts with
  | [] => .ret 0
  | d :: rest =>
    match deptMissing d d.expected_sops with
    | .exc e => .exc e
    | .ret ms =>
      match sop_main rest with
      | .exc e => .exc e
      | .ret c => .ret (if ms.isEmpty then c else 1)

/-!
## Spec-side predicates used by the claim statements
-/

/-- The render contract: the module exposes a callable `render` with no
required positional parameter. -/
def RenderOK (m : PyModule) : Prop :=
  ∃ fn, m.render = some (.callable fn) ∧ requiredPositional fn.params = []

/-- A manifest entry that resolves to an existing module or file but is
broken: the dotted import errors (other than `ModuleNotFoundError`), or it
yields a module violating the render contract, or the fallback file exists but
fails to load or violates the contract. -/
def resolvesButBroken (env : ImportEnv) (key module_path : String) : Prop :=
  (∃ e, env.importResult module_path = .otherError e)
  ∨ (∃ m, env.importResult module_path = .ok m ∧ ¬RenderOK m)
  ∨ (env.importResult module_path = .moduleNotFound ∧ env.fileExists key = true
      ∧ ∀ m, env.fileLoad key = .ok m → ¬RenderOK m)

/-- A written manifest entry, as the cleaned dict of `normalize_tools`. -/
def entryToYaml (e : ToolEntry) : Yaml :=
  .map [(("key"), .str e.key), (("label"), .str e.label), (("module"), .str e.module),
    (("section"), e.sectionVal), (("description"), e.description)]

/-- Writing a manifest with the given entries back to YAML. -/
def writeManifest (ts : List ToolEntry) : Yaml :=
  .map [(("tools"), .list (ts.map entryToYaml))]

/-- A valid tool entry of a manifest: a dict carrying a non-empty,
whitespace-clean string `key` and `module`. -/
def ValidEntry (m : List (String × Yaml)) : Prop :=
  (∃ k, m.lookup ("key") = some (.str k) ∧ pyStrip k = k ∧ k ≠ (""))
    ∧ (∃ mo, m.lookup ("module") = some (.str mo) ∧ pyStrip mo = mo ∧ mo ≠ (""))

/-- A record produced by `normalizeOne`: its fields are stripped and non-empty
where the code guarantees it. -/
def WellFormedEntry (e : ToolEntry) : Prop :=
  pyStrip e.key = e.key ∧ e.key ≠ ("") ∧ pyStrip e.module = e.module ∧ e.module ≠ ("")
    ∧ pyStrip e.label = e.label ∧ e.label ≠ ("")

/-- At least one watched document resolves, fetches, and carries a signature
different from the previously stored one. -/
def ChangeDetected (env : RegEnv) (docs : List RegDoc)
    (state0 : List (String × Option String)) : Prop :=
  ∃ d ∈ docs, ∃ url meta, resolve_url env d = some url ∧ ¬url.isEmpty
    ∧ env.fetch url = .ok meta ∧ prevSigOf state0 d.key ≠ some (regSignature meta)

/-- Some department has an expected SOP whose first whitespace token
(lowercased) is a substring of no lowercased file stem under its `sop_dir`. -/
def SopMissingSomewhere (depts : List Dept) : Prop :=
  ∃ d ∈ depts, ∃ sop ∈ d.expected_sops, ∃ tok, sopToken sop = some tok
    ∧ ∀ st ∈ deptFound d, strContains st tok = false

/-!
## Helper lemmas
-/

theorem pyStrip_data (s : String) :
    (pyStrip s).data =
      List.rdropWhile Char.isWhitespace (s.data.dropWhile Char.isWhitespace) := rfl

theorem pyStrip_strip_core (l : List Char) :
    let core := fun m => List.rdropWhile Char.isWhitespace (m.dropWhile Char.isWhitespace)
    core (core l) = core l := by
  intro core
  show List.rdropWhile _ (List.dropWhile _ _) = _
  set p := Char.isWhitespace with hp
  set A := l.dropWhile p with hA
  set B := List.rdropWhile p A with hB
  have hdw : B.dropWhile p = B := by
    rcases hBe : B with _ | ⟨c, t⟩
    · rfl
    · have hpre : B <+: A := by rw [hB]; exact List.rdropWhile_prefix p A
      rw [hBe] at hpre
      obtain ⟨tail, htail⟩ := hpre
      have hAc : A = c :: (t ++ tail) := by rw [← htail]; simp
      have hc : ¬p c = true := by
        have := List.head_dropWhile_not p l
        rw [← hA, hAc] at this
        simpa using this (by simp)
      simp [List.dropWhile_cons, hc]
  rw [hdw, hB, List.rdropWhile_idempotent]

theorem pyStrip_idem (s : String) : pyStrip (pyStrip s) = pyStrip s := by
  apply String.ext
  rw [pyStrip_data, pyStrip_data]
  exact pyStrip_strip_core s.data

theorem validate_render_fst_iff (mod : PyModule) (key : String) :
    (validate_render mod key).1 = true ↔ RenderOK mod := by
  unfold validate_render RenderOK
  rcases mod.render with _ | ra
  · simp
  · rcases ra with fn | _
    · by_cases hreq : (requiredPositional fn.params).isEmpty
      · simp only [hreq, if_pos]
        simp [List.isEmpty_iff.mp hreq]
      · simp only [hreq]
        simp only [Bool.false_eq_true, if_false]
        constructor
        · intro h; exact absurd h (by simp)
        · rintro ⟨fn', hfn', hreq'⟩
          cases hfn'
          exact absurd (List.isEmpty_iff.mpr hreq') (by simp [hreq])
    · simp

theorem smokeEntry_failed_iff (env : ImportEnv) (key module_path : String) :
    (∃ msg, smokeEntry env key module_path = .failed msg) ↔
      resolvesButBroken env key module_path := by
  rcases himp : env.importResult module_path with m | _ | e
  · have hval := validate_render_fst_iff m key
    rcases hv : validate_render m key with ⟨ok, msg⟩
    have hiff : RenderOK m ↔ (ok = true) := by rw [← hval, hv]
    rcases ok
    · simp [smokeEntry, resolvesButBroken, himp, hv, hiff]
    · simp [smokeEntry, resolvesButBroken, himp, hv, hiff]
  · by_cases hfe : env.fileExists key
    · rcases hfl : env.fileLoad key with m | _ | e
      · have hval := validate_render_fst_iff m key
        rcases hv : validate_render m key with ⟨ok, msg⟩
        have hiff : RenderOK m ↔ (ok = true) := by rw [← hval, hv]
        rcases ok
        · simp [smokeEntry, resolvesButBroken, himp, hfe, hfl, hv, hiff]
        · simp [smokeEntry, resolvesButBroken, himp, hfe, hfl, hv, hiff]
      · simp [smokeEntry, resolvesButBroken, himp, hfe, hfl]
      · simp [smokeEntry, resolvesButBroken, himp, hfe, hfl]
    · simp [smokeEntry, resolvesButBroken, himp, hfe]
  · simp [smokeEntry, resolvesButBroken, himp]

theorem smokeRun_ne_nil_iff (env : ImportEnv) (entries : List (String × ToolCfg)) :
    smokeRun env entries ≠ [] ↔
      ∃ p ∈ entries, p.2.enabled = true ∧
        ∃ msg, smokeEntry env p.1 p.2.module = .failed msg := by
  induction entries with
  | nil => simp [smokeRun]
  | cons hd tl ih =>
    obtain ⟨key, cfg⟩ := hd
    rcases hen : cfg.enabled
    · simp only [smokeRun, hen, Bool.false_eq_true, if_false, List.nil_append]
      rw [ih]
      constructor
      · rintro ⟨p, hp, h1, h2⟩; exact ⟨p, List.Mem.tail _ hp, h1, h2⟩
      · rintro ⟨p, hp, h1, m, h2⟩
        rcases List.mem_cons.mp hp with rfl | hp'
        · rw [hen] at h1; cases h1
        · exact ⟨p, hp', h1, m, h2⟩
    · rcases hse : smokeEntry env key cfg.module with _ | _ | _ | msg
      case failed =>
        simp only [smokeRun, hen, if_true, hse, List.cons_append]
        constructor
        · intro _; exact ⟨(key, cfg), List.mem_cons_self _ _, hen, msg, hse⟩
        · intro _; simp
      all_goals
        simp only [smokeRun, hen, if_true, hse, List.nil_append]
        rw [ih]
        constructor
        · rintro ⟨p, hp, h1, h2⟩; exact ⟨p, List.Mem.tail _ hp, h1, h2⟩
        · rintro ⟨p, hp, h1, m, h2⟩
          rcases List.mem_cons.mp hp with rfl | hp'
          · rw [hse] at h2; cases h2
          · exact ⟨p, hp', h1, m, h2⟩

/-- Claim C1: tool resolution first attempts the direct dotted-module import;
exactly on `ModuleNotFoundError` it falls back to `tools/<key>.py` (any
other import outcome decides the result without the file); and when neither
resolves, the entry is a non-fatal informational placeholder (interactive) or
skip (smoke check), and processing of the remaining entries continues. -/
theorem c1_resolution_order (imp : String → ImportOutcome) (fe : String → Bool)
    (fl : String → FileLoad) (key module_path : String) :
    (∀ m, imp module_path = .ok m →
      safe_import_module ⟨imp, fe, fl⟩ key module_path = .found m)
  ∧ (∀ e, imp module_path = .otherError e →
      safe_import_module ⟨imp, fe, fl⟩ key module_path = .raised e)
  ∧ (imp module_path = .moduleNotFound → fe key = true →
      safe_import_module ⟨imp, fe, fl⟩ key module_path =
        (match fl key with
          | .ok m => .found m
          | .noSpec => .notPresent
          | .execErr e => .raised e))
  ∧ (imp module_path = .moduleNotFound → fe key = false →
      safe_import_module ⟨imp, fe, fl⟩ key module_path = .notPresent
      ∧ render_or_placeholder ⟨imp, fe, fl⟩ key module_path = (.ret .infoPlaceholder, 0)
      ∧ smokeEntry ⟨imp, fe, fl⟩ key module_path = .skippedNotPresent
      ∧ ∀ (cfg : ToolCfg) (rest : List (String × ToolCfg)), cfg.module = module_path →
          smokeRun ⟨imp, fe, fl⟩ ((key, cfg) :: rest) = smokeRun ⟨imp, fe, fl⟩ rest) := by
  refine ⟨?_, ?_, ?_, ?_⟩
  · intro m h
    simp [safe_import_module, h]
  · intro e h
    simp [safe_import_module, h]
  · intro h hfe
    simp only [safe_import_module, h, hfe, if_true]
  · intro h hfe
    refine ⟨?_, ?_, ?_, ?_⟩
    · simp [safe_import_module, h, hfe]
    · simp [render_or_placeholder, safe_import_module, h, hfe]
    · simp [smokeEntry, h, hfe]
    · intro cfg rest hm
      rcases hen : cfg.enabled
      · simp [smokeRun, hen]
      · simp [smokeRun, hen, hm, smokeEntry, h, hfe]

/-- Claim C2: validation accepts a module exactly when it exposes a callable
`render` with no required positional parameter; a `render` with a
positional-only or positional-or-keyword parameter without default is rejected
with the configuration-error message naming the offending parameters, both in
the smoke check and in the interactive dispatcher, and in that case `render`
is never called, so no `TypeError` from calling it escapes. -/
theorem c2_render_contract (mod : PyModule) (key : String) :
    ((validate_render mod key).1 = true ↔ RenderOK mod)
  ∧ (∀ fn, mod.render = some (.callable fn) → requiredPositional fn.params ≠ [] →
      validate_render mod key =
        (false, key ++ (": render() must take no required positional args (found: ")
          ++ String.intercalate (", ") ((requiredPositional fn.params).map Param.name)
          ++ (")")))
  ∧ (∀ (imp : String → ImportOutcome) (fe : String → Bool) (fl : String → FileLoad)
        (module_path : String) fn,
      imp module_path = .ok mod →
      mod.render = some (.callable fn) → requiredPositional fn.params ≠ [] →
      render_or_placeholder ⟨imp, fe, fl⟩ key module_path =
        (.ret (.errorMsg (("Tool **") ++ key
          ++ ("** `render()` must take **no required args** (found: ")
          ++ String.intercalate (", ") ((requiredPositional fn.params).map Param.name)
          ++ (")."))), 0)) := by
  refine ⟨validate_render_fst_iff mod key, ?_, ?_⟩
  · intro fn hfn hreq
    have : (requiredPositional fn.params).isEmpty = false := by
      simpa using hreq
    simp [validate_render, hfn, this]
  · intro imp fe fl module_path fn himp hfn hreq
    have : (requiredPositional fn.params).isEmpty = false := by
      simpa using hreq
    simp [render_or_placeholder, safe_import_module, himp, hfn, this]

/-- Claim C3: the smoke-check exit code is 1 exactly when some enabled
manifest entry resolves to an existing module or file but fails to import or
lacks a valid zero-required-positional-argument `render()`; entries skipped as
not present or disabled never make it non-zero. -/
theorem c3_smoke_exit_iff (env : ImportEnv) (entries : List (String × ToolCfg)) :
    smokeExit env entries = 1 ↔
      ∃ p ∈ entries, p.2.enabled = true ∧ resolvesButBroken env p.1 p.2.module := by
  unfold smokeExit
  constructor
  · intro h
    have hne : smokeRun env entries ≠ [] := by
      intro hnil
      rw [if_pos hnil] at h
      cases h
    obtain ⟨p, hp, h1, h2⟩ := (smokeRun_ne_nil_iff env entries).mp hne
    exact ⟨p, hp, h1, (smokeEntry_failed_iff env p.1 p.2.module).mp h2⟩
  · rintro ⟨p, hp, h1, h2⟩
    have hne : smokeRun env entries ≠ [] :=
      (smokeRun_ne_nil_iff env entries).mpr
        ⟨p, hp, h1, (smokeEntry_failed_iff env p.1 p.2.module).mpr h2⟩
    rw [if_neg hne]

/-- Claim C4, counterexample: a manifest whose list carries two entries with
the same key `dup` loads to a single entry holding the second module
(`tools.b`) and an empty warning list — the duplicate is silently overwritten,
not reported. -/
theorem c4_counterexample :
    load_tools_entries (.parsed (.map [(("tools"),
        .list [.map [(("key"), .str ("dup")), (("module"), .str ("tools.a"))],
               .map [(("key"), .str ("dup")), (("module"), .str ("tools.b"))]])]))
      = .ok [(("dup"), ⟨("tools.b"), true⟩)] [] := by
  rfl

/-- Claim C4, amended: for any two manifest list entries sharing a key, the
loader emits no warning at all and keeps exactly one entry under that key,
the second entry's module silently overwriting the first (so only one module
is processed per key, but the duplicate goes unreported). -/
theorem c4_amended_silent_overwrite (k m1 m2 : String) (h1 : m1 ≠ (""))
    (h2 : m2 ≠ ("")) :
    load_tools_entries (.parsed (.map [(("tools"),
        .list [.map [(("key"), .str k), (("module"), .str m1)],
               .map [(("key"), .str k), (("module"), .str m2)]])]))
      = .ok [(k, ⟨m2, true⟩)] [] := by
  have hm1 : m1.isEmpty = false := by
    cases hc : m1.isEmpty
    · rfl
    · exact absurd ((String.isEmpty_iff m1).mp hc) h1
  have hm2 : m2.isEmpty = false := by
    cases hc : m2.isEmpty
    · rfl
    · exact absurd ((String.isEmpty_iff m2).mp hc) h2
  simp [load_tools_entries, loadFromList, add_entry, dictInsert, pyStr,
    yamlTruthy, hm1, hm2, List.lookup]

/-- Claim C4, witness for the amended statement at a concrete manifest. -/
theorem c4_amended_witness :
    load_tools_entries (.parsed (.map [(("tools"),
        .list [.map [(("key"), .str ("dup")), (("module"), .str ("a"))],
               .map [(("key"), .str ("dup")), (("module"), .str ("b"))]])]))
      = .ok [(("dup"), ⟨("b"), true⟩)] [] :=
  c4_amended_silent_overwrite ("dup") ("a") ("b") (by decide) (by decide)

/-- Claim C5, counterexample: in `render_or_placeholder`, an exception raised
inside a resolved tool's own `render()` body propagates to the caller
(`PyResult.exc`), contradicting the claim that no exception escapes
interactive dispatch. -/
theorem c5_counterexample :
    render_or_placeholder
        ⟨fun _ => .ok ⟨some (.callable ⟨[], .raises ("boom")⟩)⟩,
          fun _ => false, fun _ => .noSpec⟩
        ("t") ("tools.t")
      = (.exc ("boom"), 1) := by
  rfl

/-- Claim C5, amended: `render_selected_tool` (app.py) always returns a
display — never an exception — executes the selected tool's `render()` body at
most once, and exactly once when the entry resolves to a module with a
callable zero-required-argument `render` (whose own exception is caught as an
in-page error); in `render_or_placeholder` (tool_loader.py) every failure path
before invocation returns a message, but an exception raised inside the tool's
own `render()` propagates to the caller, after exactly one invocation. -/
theorem c5_amended_dispatch (env : AppEnv) (tools : List ToolEntry)
    (key : Option String) (imp : String → ImportOutcome) (fe : String → Bool)
    (fl : String → FileLoad) (k mp : String) :
    (∃ d, (render_selected_tool env tools key).1 = .ret d)
  ∧ ((render_selected_tool env tools key).2 ≤ 1)
  ∧ (∀ k' entry m fn, key = some k' → k'.isEmpty = false →
      tools.find? (fun t => t.key == k') = some entry →
      (smart_import env entry.module).1 = some m →
      m.render = some (.callable fn) → requiredPositional fn.params = [] →
      (render_selected_tool env tools key).2 = 1)
  ∧ (∀ e, (render_or_placeholder ⟨imp, fe, fl⟩ k mp).1 = .exc e →
      ∃ m fn, safe_import_module ⟨imp, fe, fl⟩ k mp = .found m
        ∧ m.render = some (.callable fn) ∧ requiredPositional fn.params = []
        ∧ fn.body = .raises e ∧ (render_or_placeholder ⟨imp, fe, fl⟩ k mp).2 = 1) := by
  refine ⟨?_, ?_, ?_, ?_⟩
  · unfold render_selected_tool
    rcases key with _ | k'
    · exact ⟨_, rfl⟩
    · dsimp only
      repeat' split
      all_goals exact ⟨_, rfl⟩
  · unfold render_selected_tool
    rcases key with _ | k'
    · simp
    · dsimp only
      repeat' split
      all_goals simp
  · intro k' entry m fn hkey hke hfind hsmart hrender hreq
    subst hkey
    rcases hsi : smart_import env entry.module with ⟨om, tr⟩
    rw [hsi] at hsmart
    simp only at hsmart
    subst hsmart
    have hreqe : (requiredPositional fn.params).isEmpty = true :=
      List.isEmpty_iff.mpr hreq
    unfold render_selected_tool
    simp only [hke, Bool.false_eq_true, if_false, hfind, hsi, hrender, hreqe, if_true]
    split
    · rfl
    · rfl
  · intro e he
    unfold render_or_placeholder at he ⊢
    rcases hsim : safe_import_module ⟨imp, fe, fl⟩ k mp with m | _ | msg
    · simp only [hsim] at he ⊢
      rcases hrender : m.render with _ | (fn | _)
      · simp only [hrender] at he; cases he
      · simp only [hrender] at he ⊢
        rcases hreq : (requiredPositional fn.params).isEmpty
        · simp only [hreq, Bool.false_eq_true, if_false] at he; cases he
        · simp only [hreq, if_true] at he ⊢
          rcases hb : fn.body with _ | e'
          · simp only [hb] at he; cases he
          · simp only [hb] at he ⊢
            simp only [PyResult.exc.injEq] at he
            subst he
            exact ⟨m, fn, rfl, hrender, List.isEmpty_iff.mp hreq, hb, trivial⟩
      · simp only [hrender] at he; cases he
    · simp only [hsim] at he; cases he
    · simp only [hsim] at he; cases he

/-- Claim C6: a missing tools.yaml makes the smoke check exit 1, while the
interactive config loader shows an in-page error and returns the empty tools
configuration `{"tools": []}` (normalizing to no tools), so the session
continues. -/
theorem c6_missing_manifest (env : ImportEnv) :
    smoke_main .missing env = .ret 1
  ∧ (load_tools_config .missing).1 ≠ []
  ∧ (load_tools_config .missing).2 = .map [(("tools"), .list [])]
  ∧ normalize_tools (load_tools_config .missing).2 = .ret [] := by
  refine ⟨rfl, ?_, rfl, rfl⟩
  simp [load_tools_config]

theorem ChangeDetected_cons (env : RegEnv) (d : RegDoc) (rest : List RegDoc)
    (s : List (String × Option String)) :
    ChangeDetected env (d :: rest) s ↔
      (∃ url meta, resolve_url env d = some url ∧ ¬url.isEmpty
        ∧ env.fetch url = .ok meta ∧ prevSigOf s d.key ≠ some (regSignature meta))
      ∨ ChangeDetected env rest s := by
  unfold ChangeDetected
  rw [List.exists_mem_cons_iff]

theorem regFold_ups_ne_nil_iff (env : RegEnv) (docs : List RegDoc) :
    ∀ state : List (String × Option String),
      (regFold env docs state).2 ≠ [] ↔ ChangeDetected env docs state := by
  induction docs with
  | nil =>
    intro state
    simp [regFold, ChangeDetected]
  | cons d rest ih =>
    intro state
    rw [ChangeDetected_cons]
    rcases hurl : resolve_url env d with _ | url
    · simp only [regFold, hurl]
      rw [ih state]
      simp
    · rcases hemp : url.isEmpty
      · rcases hfetch : env.fetch url with msg | meta
        · simp only [regFold, hurl, hemp, Bool.false_eq_true, if_false, hfetch]
          rw [ih state]
          simp [hfetch, hemp]
        · by_cases hsig : prevSigOf state d.key = some (regSignature meta)
          · simp only [regFold, hurl, hemp, Bool.false_eq_true, if_false, hfetch,
              hsig, if_true]
            rw [ih state]
            simp [hfetch, hemp, hsig]
          · rcases hrf : regFold env rest (dictInsert state d.key (some (regSignature meta)))
              with ⟨st, ups⟩
            simp only [regFold, hurl, hemp, Bool.false_eq_true, if_false, hfetch,
              hsig, hrf]
            constructor
            · intro _
              refine Or.inl ⟨url, meta, rfl, ?_, hfetch, hsig⟩
              rw [hemp]
              exact Bool.false_ne_true
            · intro _
              simp
      · simp only [regFold, hurl, hemp, if_true]
        rw [ih state]
        constructor
        · exact Or.inr
        · rintro (⟨url', meta', hu, hne, _, _⟩ | h)
          · injection hu with hu'
            subst hu'
            exact absurd hemp (by simpa using hne)
          · exact h

/-- Claim C7, counterexample: `main()` does not return exit code 0 for every
input — its first step `load_watchlist()` ends the process with `sys.exit(1)`
when the watchlist file is missing, and a watchlist whose `docs` list holds a
non-mapping item (here the int `5`) raises an uncaught `AttributeError` at
`item.get`, ending the process with a non-zero exit. -/
theorem c7_counterexample :
    reg_main .missing ⟨fun _ => none, fun _ => none, fun _ => .fail ("")⟩ [] = .exit1
  ∧ reg_main (.parsed (.map [(("docs"), .list [.int' 5])]))
      ⟨fun _ => none, fun _ => none, fun _ => .fail ("")⟩ []
    = .crashed ("AttributeError") :=
  ⟨rfl, rfl⟩

/-- Claim C7, amended: the watcher’s `main()` exits 1 when the watchlist
file is missing and dies with the uncaught exception on malformed watchlist
contents (unparseable YAML, a non-mapping document, a non-iterable `docs`
value, a non-mapping `docs` item); only when the watchlist loads into a
documents list does it return exit code 0 — then for every network outcome
and unresolved URL — and it then writes the state file and appends to the
watch log exactly when at least one loaded document resolves, fetches, and
carries a signature different from the previously stored one. -/
theorem c7_amended_reg_watch (rr : ReadResult) (env : RegEnv)
    (state0 : List (String × Option String)) :
    load_watchlist .missing = .exit1
  ∧ (∀ e, load_watchlist (.parseError e) = .raised e)
  ∧ (load_watchlist rr = .exit1 → reg_main rr env state0 = .exit1)
  ∧ (∀ e, load_watchlist rr = .raised e → reg_main rr env state0 = .crashed e)
  ∧ (∀ ds ws, load_watchlist rr = .docs ds ws →
      ∃ r, reg_main rr env state0 = .ran r ∧ r.exitCode = 0
        ∧ (r.wrote = true ↔ ChangeDetected env ds state0)) := by
  refine ⟨rfl, fun e => rfl, ?_, ?_, ?_⟩
  · intro h
    simp only [reg_main, h]
  · intro e h
    simp only [reg_main, h]
  · intro ds ws h
    refine ⟨⟨0, !(regFold env ds state0).2.isEmpty,
        if (regFold env ds state0).2.isEmpty then state0
        else (regFold env ds state0).1⟩, ?_, rfl, ?_⟩
    · simp only [reg_main, h]
    · constructor
      · intro hwt
        apply (regFold_ups_ne_nil_iff env ds state0).mp
        intro hnil
        rw [hnil] at hwt
        cases hwt
      · intro hcd
        have hne := (regFold_ups_ne_nil_iff env ds state0).mpr hcd
        rcases hl : (regFold env ds state0).2 with _ | ⟨a, l⟩
        · exact absurd hl hne
        · rfl

/-- Claim C7, witness for the amended statement: a loading watchlist with one
resolvable document runs to completion with exit code 0. -/
theorem c7_amended_witness :
    ∃ r, reg_main (.parsed (.map [(("docs"),
          .list [.map [(("key"), Yaml.str ("iso")), (("url"), Yaml.str ("http://x"))]])]))
        ⟨fun _ => none, fun _ => none,
          fun _ => .ok ⟨200, ("http://x"), (""), (""), (""), 0⟩⟩ []
      = .ran r ∧ r.exitCode = 0
      ∧ (r.wrote = true ↔ ChangeDetected
          ⟨fun _ => none, fun _ => none,
            fun _ => .ok ⟨200, ("http://x"), (""), (""), (""), 0⟩⟩
          [⟨("iso"), ("iso"), none, some ("http://x")⟩] []) :=
  (c7_amended_reg_watch
      (.parsed (.map [(("docs"),
        .list [.map [(("key"), Yaml.str ("iso")), (("url"), Yaml.str ("http://x"))]])]))
      ⟨fun _ => none, fun _ => none,
        fun _ => .ok ⟨200, ("http://x"), (""), (""), (""), 0⟩⟩ []).2.2.2.2
    [⟨("iso"), ("iso"), none, some ("http://x")⟩] [] (by rfl)

theorem deptMissing_ret (d : Dept) (l : List String)
    (h : ∀ sop ∈ l, pySplitWs sop ≠ []) :
    ∃ ms, deptMissing d l = .ret ms ∧
      (ms ≠ [] ↔ ∃ sop ∈ l, ∃ tok, sopToken sop = some tok
        ∧ ∀ st ∈ deptFound d, strContains st tok = false) := by
  induction l with
  | nil =>
    refine ⟨[], rfl, ?_⟩
    simp
  | cons sop rest ih =>
    obtain ⟨ms, hms, hiff⟩ := ih (fun s hs => h s (List.mem_cons_of_mem _ hs))
    rcases hsp : pySplitWs sop with _ | ⟨t0, ts⟩
    · exact absurd hsp (h sop (List.mem_cons_self _ _))
    · have htok : sopToken sop = some (pyLower t0) := by
        unfold sopToken
        rw [hsp]
      rcases hany : (deptFound d).any (fun st => strContains st (pyLower t0))
      · refine ⟨sop :: ms, ?_, ?_⟩
        · simp only [deptMissing, htok, hms, hany]
          simp
        · constructor
          · intro _
            refine ⟨sop, List.mem_cons_self _ _, pyLower t0, htok, ?_⟩
            intro st hst
            have := List.any_eq_false.mp hany st hst
            simpa using this
          · intro _
            exact List.cons_ne_nil _ _
      · refine ⟨ms, ?_, ?_⟩
        · simp only [deptMissing, htok, hms, hany]
          simp
        · rw [hiff]
          constructor
          · rintro ⟨s, hs, tk, htk, hall⟩
            exact ⟨s, List.mem_cons_of_mem _ hs, tk, htk, hall⟩
          · rintro ⟨s, hs, tk, htk, hall⟩
            rcases List.mem_cons.mp hs with rfl | hs'
            · rw [htok] at htk
              injection htk with htk'
              subst htk'
              obtain ⟨st, hst, hc⟩ := List.any_eq_true.mp hany
              exact absurd (hall st hst) (by simp [hc])
            · exact ⟨s, hs', tk, htk, hall⟩

theorem SopMissingSomewhere_cons (d : Dept) (rest : List Dept) :
    SopMissingSomewhere (d :: rest) ↔
      (∃ sop ∈ d.expected_sops, ∃ tok, sopToken sop = some tok
        ∧ ∀ st ∈ deptFound d, strContains st tok = false)
      ∨ SopMissingSomewhere rest := by
  unfold SopMissingSomewhere
  rw [List.exists_mem_cons_iff]

theorem sop_main_characterization (depts : List Dept)
    (h : ∀ d ∈ depts, ∀ sop ∈ d.expected_sops, pySplitWs sop ≠ []) :
    ∃ c, sop_main depts = .ret c ∧ (c = 1 ↔ SopMissingSomewhere depts)
      ∧ (c = 0 ↔ ¬SopMissingSomewhere depts) := by
  induction depts with
  | nil =>
    refine ⟨0, rfl, ?_, ?_⟩
    · simp [SopMissingSomewhere]
    · simp [SopMissingSomewhere]
  | cons d rest ih =>
    obtain ⟨ms, hms, hiff⟩ :=
      deptMissing_ret d d.expected_sops (h d (List.mem_cons_self _ _))
    obtain ⟨c, hc, hc1, hc0⟩ := ih (fun d' hd' => h d' (List.mem_cons_of_mem _ hd'))
    rcases ms with _ | ⟨m0, ms'⟩
    · have hnd : ¬∃ sop ∈ d.expected_sops, ∃ tok, sopToken sop = some tok
          ∧ ∀ st ∈ deptFound d, strContains st tok = false := by
        intro hex
        exact (hiff.mpr hex) rfl
      refine ⟨c, ?_, ?_, ?_⟩
      · simp only [sop_main, hms, hc]
        simp
      · rw [SopMissingSomewhere_cons, hc1]
        constructor
        · exact Or.inr
        · rintro (hd | hr)
          · exact absurd hd hnd
          · exact hr
      · rw [SopMissingSomewhere_cons, hc0]
        constructor
        · intro hcc
          rintro (hd | hr)
          · exact hnd hd
          · exact hcc hr
        · intro hall
          intro hr
          exact hall (Or.inr hr)
    · have hd : ∃ sop ∈ d.expected_sops, ∃ tok, sopToken sop = some tok
          ∧ ∀ st ∈ deptFound d, strContains st tok = false :=
        hiff.mp (List.cons_ne_nil _ _)
      refine ⟨1, ?_, ?_, ?_⟩
      · simp only [sop_main, hms, hc]
        simp
      · rw [SopMissingSomewhere_cons]
        constructor
        · intro _
          exact Or.inl hd
        · intro _
          rfl
      · rw [SopMissingSomewhere_cons]
        constructor
        · intro hcc
          exact absurd hcc one_ne_zero
        · intro hall
          exact absurd (Or.inl hd) hall

/-- Claim C9: the SOP watcher exits 1 exactly when some department has an
expected SOP whose first whitespace-separated token (lowercased) is a
substring of no lowercased file stem found under that department's `sop_dir`,
and exits 0 otherwise (given each expected SOP has a first token; a
whitespace-only entry would instead raise `IndexError`). -/
theorem c9_sop_exit (depts : List Dept)
    (h : ∀ d ∈ depts, ∀ sop ∈ d.expected_sops, pySplitWs sop ≠ []) :
    (sop_main depts = .ret 1 ↔ SopMissingSomewhere depts)
  ∧ (sop_main depts = .ret 0 ↔ ¬SopMissingSomewhere depts) := by
  obtain ⟨c, hc, hc1, hc0⟩ := sop_main_characterization depts h
  rw [hc]
  constructor
  · rw [← hc1]
    constructor
    · intro hh
      injection hh
    · intro hh
      rw [hh]
  · rw [← hc0]
    constructor
    · intro hh
      injection hh
    · intro hh
      rw [hh]

/-- Claim C9, witness: a department expecting `SOP-999 intro` with no files on
disk makes the watcher exit 1. -/
theorem c9_sop_exit_witness :
    sop_main [⟨("qa"), ("Quality"), ("standards/sops"), [("SOP-999 intro")], []⟩]
      = .ret 1 :=
  (c9_sop_exit [⟨("qa"), ("Quality"), ("standards/sops"), [("SOP-999 intro")], []⟩]
      (by decide)).1.mpr
    ⟨⟨("qa"), ("Quality"), ("standards/sops"), [("SOP-999 intro")], []⟩,
      List.mem_cons_self _ _,
      ("SOP-999 intro"), List.mem_cons_self _ _,
      ("sop-999"), by decide, by intro st hst; simp [deptFound] at hst⟩

theorem normalizeOne_wellFormed (t : Yaml) (e : ToolEntry)
    (h : normalizeOne t = some e) : WellFormedEntry e := by
  rcases t with _ | _ | _ | _ | _ | kvs
  case map =>
    simp only [normalizeOne] at h
    set k0 := pyStrip (pyStr ((kvs.lookup ("key")).getD (.str ("")))) with hk0
    set m0 := pyStrip (pyStr ((kvs.lookup ("module")).getD (.str ("")))) with hm0
    rcases hke : k0.isEmpty
    · rcases hme : m0.isEmpty
      · rw [hke, hme] at h
        simp only [Bool.not_false, Bool.and_self, if_true, Option.some.injEq] at h
        subst h
        have hkne : k0 ≠ ("") := fun hc => by
          rw [hc] at hke
          cases hke
        have hmne : m0 ≠ ("") := fun hc => by
          rw [hc] at hme
          cases hme
        set l0 := pyStrip (pyStr ((kvs.lookup ("label")).getD (.str k0))) with hl0
        refine ⟨?_, hkne, ?_, hmne, ?_, ?_⟩
        · rw [hk0, pyStrip_idem]
        · rw [hm0, pyStrip_idem]
        · simp only [hke, Bool.false_eq_true, if_false]
          rcases hle : l0.isEmpty
          · simp only [Bool.false_eq_true, if_false]
            rw [hl0, pyStrip_idem]
          · simp only [if_true]
            rw [hk0, pyStrip_idem]
        · simp only [hke, Bool.false_eq_true, if_false]
          rcases hle : l0.isEmpty
          · simp only [Bool.false_eq_true, if_false]
            intro hc
            rw [hc] at hle
            cases hle
          · simp only [if_true]
            exact fun hc => by
              rw [hc] at hke
              cases hke
      · rw [hke, hme] at h
        simp at h
    · rw [hke] at h
      simp at h
  all_goals cases h

theorem wellFormed_roundtrip (e : ToolEntry) (h : WellFormedEntry e) :
    normalizeOne (entryToYaml e) = some e := by
  obtain ⟨ek, el, em, es, ed⟩ := e
  obtain ⟨hk, hkne, hm, hmne, hl, hlne⟩ := h
  simp only at hk hkne hm hmne hl hlne
  have hkee : ek.isEmpty = false := by
    cases hc : ek.isEmpty
    · rfl
    · exact absurd ((String.isEmpty_iff ek).mp hc) hkne
  have hmee : em.isEmpty = false := by
    cases hc : em.isEmpty
    · rfl
    · exact absurd ((String.isEmpty_iff em).mp hc) hmne
  have hlee : el.isEmpty = false := by
    cases hc : el.isEmpty
    · rfl
    · exact absurd ((String.isEmpty_iff el).mp hc) hlne
  have lkk : List.lookup ("key")
      [(("key"), Yaml.str ek), (("label"), Yaml.str el), (("module"), Yaml.str em),
        (("section"), es), (("description"), ed)] = some (Yaml.str ek) := rfl
  have lkl : List.lookup ("label")
      [(("key"), Yaml.str ek), (("label"), Yaml.str el), (("module"), Yaml.str em),
        (("section"), es), (("description"), ed)] = some (Yaml.str el) := rfl
  have lkm : List.lookup ("module")
      [(("key"), Yaml.str ek), (("label"), Yaml.str el), (("module"), Yaml.str em),
        (("section"), es), (("description"), ed)] = some (Yaml.str em) := rfl
  have lks : List.lookup ("section")
      [(("key"), Yaml.str ek), (("label"), Yaml.str el), (("module"), Yaml.str em),
        (("section"), es), (("description"), ed)] = some es := rfl
  have lkd : List.lookup ("description")
      [(("key"), Yaml.str ek), (("label"), Yaml.str el), (("module"), Yaml.str em),
        (("section"), es), (("description"), ed)] = some ed := rfl
  simp only [entryToYaml, normalizeOne, lkk, lkl, lkm, lks, lkd, Option.getD_some,
    pyStr, hk, hm, hl, hkee, hmee, hlee, Bool.not_false, Bool.and_self,
    Bool.false_eq_true, if_false, if_true]

/-- Claim C10, counterexample: `normalize_tools` does raise for some input
dict — a `tools` value that is a non-iterable scalar (here the int `5`) makes
the `for t in items` loop raise `TypeError`. -/
theorem c10_counterexample :
    normalize_tools (.map [(("tools"), .int' 5)])
      = .exc ("TypeError: object is not iterable") := by
  rfl

/-- Claim C10, amended: whenever the `tools` value of the parsed mapping is a
list, `normalize_tools` returns (never raises) a list in which every element
has a non-empty key and module; an item is dropped exactly when it is not a
dict or its coerced-and-stripped key or module is blank; and a kept entry
whose label is absent or blank gets its key as label.  (A non-iterable
`tools` value such as an int raises `TypeError` instead — see the
counterexample.) -/
theorem c10_amended_normalize (kvs : List (String × Yaml)) (xs : List Yaml)
    (h : kvs.lookup ("tools") = some (.list xs)) :
    normalize_tools (.map kvs) = .ret (xs.filterMap normalizeOne)
  ∧ (∀ e ∈ xs.filterMap normalizeOne, e.key ≠ ("") ∧ e.module ≠ (""))
  ∧ (∀ t ∈ xs, normalizeOne t = none ↔
      (∀ m, t ≠ .map m) ∨ ∃ m, t = .map m ∧
        (pyStrip (pyStr ((m.lookup ("key")).getD (.str ("")))) = ("")
          ∨ pyStrip (pyStr ((m.lookup ("module")).getD (.str ("")))) = ("")))
  ∧ (∀ m e, normalizeOne (.map m) = some e →
      (m.lookup ("label")) = none ∨
        pyStrip (pyStr ((m.lookup ("label")).getD (.str e.key))) = ("") →
      e.label = e.key) := by
  refine ⟨?_, ?_, ?_, ?_⟩
  · simp only [normalize_tools, h, Option.getD_some]
    rcases xs with _ | ⟨x, xs'⟩
    · simp [yamlTruthy]
    · simp [yamlTruthy]
  · intro e he
    obtain ⟨t, _, ht⟩ := List.mem_filterMap.mp he
    obtain ⟨_, hkne, _, hmne, _, _⟩ := normalizeOne_wellFormed t e ht
    exact ⟨hkne, hmne⟩
  · intro t _
    rcases t with _ | _ | _ | _ | _ | m
    case map =>
      simp only [normalizeOne]
      set k0 := pyStrip (pyStr ((m.lookup ("key")).getD (.str ("")))) with hk0
      set m0 := pyStrip (pyStr ((m.lookup ("module")).getD (.str ("")))) with hm0
      constructor
      · intro hn
        refine Or.inr ⟨m, rfl, ?_⟩
        rcases hke : k0.isEmpty
        · rcases hme : m0.isEmpty
          · rw [hke, hme] at hn
            simp at hn
          · exact Or.inr ((String.isEmpty_iff m0).mp hme)
        · exact Or.inl ((String.isEmpty_iff k0).mp hke)
      · rintro (hnm | ⟨m', hm', hor⟩)
        · exact absurd rfl (hnm m)
        · injection hm' with hmm
          subst hmm
          rcases hor with hz | hz
          · have : k0.isEmpty = true := (String.isEmpty_iff k0).mpr (by rw [hk0]; exact hz)
            rw [this]
            simp
          · have : m0.isEmpty = true := (String.isEmpty_iff m0).mpr (by rw [hm0]; exact hz)
            rw [this]
            simp
    all_goals
      constructor
      · intro _
        exact Or.inl (fun m => by simp)
      · intro _
        rfl
  · intro m e hn hlab
    simp only [normalizeOne] at hn
    set k0 := pyStrip (pyStr ((m.lookup ("key")).getD (.str ("")))) with hk0
    set m0 := pyStrip (pyStr ((m.lookup ("module")).getD (.str ("")))) with hm0
    rcases hke : k0.isEmpty
    · rcases hme : m0.isEmpty
      · rw [hke, hme] at hn
        simp only [Bool.not_false, Bool.and_self, if_true, Option.some.injEq] at hn
        subst hn
        simp only [hke, Bool.false_eq_true, if_false]
        set l0 := pyStrip (pyStr ((m.lookup ("label")).getD (.str k0))) with hl0
        rcases hlab with hnone | hblank
        · have hlk : l0 = k0 := by
            rw [hl0, hnone]
            simp only [Option.getD_none]
            simp only [pyStr]
            rw [hk0, pyStrip_idem]
          rcases hle : l0.isEmpty
          · simp only [Bool.false_eq_true, if_false]
            exact hlk
          · exact if_pos rfl
        · have hle : l0.isEmpty = true := by
            apply (String.isEmpty_iff l0).mpr
            rw [hl0]
            exact hblank
          rw [hle]
          exact if_pos rfl
      · rw [hke, hme] at hn
        simp at hn
    · rw [hke] at hn
      simp at hn

/-- Claim C10, witness for the amended statement at a concrete manifest. -/
theorem c10_amended_witness :
    normalize_tools (.map [(("tools"),
        .list [.map [(("key"), Yaml.str ("hello")), (("module"), Yaml.str ("tools.hello"))],
          Yaml.int' 7])])
      = .ret ([.map [(("key"), Yaml.str ("hello")), (("module"), Yaml.str ("tools.hello"))],
          Yaml.int' 7].filterMap normalizeOne) :=
  (c10_amended_normalize
      [(("tools"),
        .list [.map [(("key"), Yaml.str ("hello")), (("module"), Yaml.str ("tools.hello"))],
          Yaml.int' 7])]
      [.map [(("key"), Yaml.str ("hello")), (("module"), Yaml.str ("tools.hello"))],
        Yaml.int' 7]
      (by rfl)).1

theorem normalizeOne_valid (m : List (String × Yaml)) (h : ValidEntry m) :
    ∃ e, normalizeOne (.map m) = some e ∧ m.lookup ("key") = some (.str e.key)
      ∧ m.lookup ("module") = some (.str e.module) := by
  obtain ⟨⟨k, hk, hks, hkne⟩, ⟨mo, hmo, hms, hmne⟩⟩ := h
  have hkee : k.isEmpty = false := by
    cases hc : k.isEmpty
    · rfl
    · exact absurd ((String.isEmpty_iff k).mp hc) hkne
  have hmee : mo.isEmpty = false := by
    cases hc : mo.isEmpty
    · rfl
    · exact absurd ((String.isEmpty_iff mo).mp hc) hmne
  simp only [normalizeOne, hk, hmo, Option.getD_some, pyStr, hks, hms, hkee, hmee,
    Bool.not_false, Bool.and_self, if_true, Bool.false_eq_true, if_false]
  exact ⟨_, rfl, rfl, rfl⟩

theorem filterMap_valid_entries (es : List (List (String × Yaml)))
    (h : ∀ m ∈ es, ValidEntry m) :
    ((es.map Yaml.map).filterMap normalizeOne).length = es.length
    ∧ List.Forall₂ (fun m e => m.lookup ("key") = some (Yaml.str e.key)
        ∧ m.lookup ("module") = some (Yaml.str e.module)) es
        ((es.map Yaml.map).filterMap normalizeOne) := by
  induction es with
  | nil => exact ⟨rfl, List.Forall₂.nil⟩
  | cons m rest ih =>
    obtain ⟨e, he, hk, hm⟩ := normalizeOne_valid m (h m (List.mem_cons_self _ _))
    obtain ⟨ihl, ihf⟩ := ih (fun m' hm' => h m' (List.mem_cons_of_mem _ hm'))
    have hcons : ((m :: rest).map Yaml.map).filterMap normalizeOne
        = e :: (rest.map Yaml.map).filterMap normalizeOne := by
      simp [List.filterMap_cons, he]
    rw [hcons]
    exact ⟨by simp only [List.length_cons, ihl], List.Forall₂.cons ⟨hk, hm⟩ ihf⟩

theorem roundtrip_list (ts : List ToolEntry) (h : ∀ e ∈ ts, WellFormedEntry e) :
    (ts.map entryToYaml).filterMap normalizeOne = ts := by
  induction ts with
  | nil => rfl
  | cons e rest ih =>
    simp [List.filterMap_cons, wellFormed_roundtrip e (h e (List.mem_cons_self _ _)),
      ih (fun e' he' => h e' (List.mem_cons_of_mem _ he'))]

theorem writeManifest_roundtrip (ts : List ToolEntry)
    (h : ∀ e ∈ ts, WellFormedEntry e) :
    normalize_tools (writeManifest ts) = .ret ts := by
  have hl : List.lookup ("tools") [(("tools"), Yaml.list (ts.map entryToYaml))]
      = some (Yaml.list (ts.map entryToYaml)) := rfl
  simp only [writeManifest, normalize_tools, hl, Option.getD_some]
  rcases ts with _ | ⟨e0, ts'⟩
  · rfl
  · have htru : yamlTruthy (Yaml.list ((e0 :: ts').map entryToYaml)) = true := rfl
    rw [htru, if_pos rfl]
    show PyResult.ret (((e0 :: ts').map entryToYaml).filterMap normalizeOne)
      = PyResult.ret (e0 :: ts')
    rw [roundtrip_list (e0 :: ts') h]

/-- Claim C8: a YAML manifest written with N valid tool entries parses to
exactly N `ToolEntry` records whose keys and modules equal those written, and
parsing the result of writing those records back yields the same records
(idempotent parse). -/
theorem c8_manifest_roundtrip (es : List (List (String × Yaml)))
    (h : ∀ m ∈ es, ValidEntry m) :
    ∃ ts, normalize_tools (.map [(("tools"), .list (es.map .map))]) = .ret ts
    ∧ ts.length = es.length
    ∧ List.Forall₂ (fun m e => m.lookup ("key") = some (Yaml.str e.key)
        ∧ m.lookup ("module") = some (Yaml.str e.module)) es ts
    ∧ normalize_tools (writeManifest ts) = .ret ts := by
  refine ⟨(es.map Yaml.map).filterMap normalizeOne, ?_, (filterMap_valid_entries es h).1,
    (filterMap_valid_entries es h).2, ?_⟩
  · have hl : List.lookup ("tools") [(("tools"), Yaml.list (es.map Yaml.map))]
        = some (Yaml.list (es.map Yaml.map)) := rfl
    simp only [normalize_tools, hl, Option.getD_some]
    rcases es with _ | ⟨m, rest⟩
    · rfl
    · have htru : yamlTruthy (Yaml.list ((m :: rest).map Yaml.map)) = true := rfl
      rw [htru, if_pos rfl]
  · apply writeManifest_roundtrip
    intro e he
    obtain ⟨t, _, ht⟩ := List.mem_filterMap.mp he
    exact normalizeOne_wellFormed t e ht

/-- Claim C8, witness: a one-entry manifest round-trips. -/
theorem c8_manifest_roundtrip_witness :
    ∃ ts, normalize_tools (.map [(("tools"),
        .list ([[(("key"), Yaml.str ("hello")), (("module"), Yaml.str ("tools.hello"))]].map .map))])
      = .ret ts
    ∧ ts.length = [[(("key"), Yaml.str ("hello")), (("module"), Yaml.str ("tools.hello"))]].length
    ∧ List.Forall₂ (fun m e => m.lookup ("key") = some (Yaml.str e.key)
        ∧ m.lookup ("module") = some (Yaml.str e.module))
        [[(("key"), Yaml.str ("hello")), (("module"), Yaml.str ("tools.hello"))]] ts
    ∧ normalize_tools (writeManifest ts) = .ret ts :=
  c8_manifest_roundtrip [[(("key"), Yaml.str ("hello")), (("module"), Yaml.str ("tools.hello"))]]
    (by
      intro m hm
      rw [List.mem_singleton] at hm
      subst hm
      exact ⟨⟨("hello"), rfl, rfl, by decide⟩, ⟨("tools.hello"), rfl, rfl, by decide⟩⟩)
